import Mathlib

/-!
Verification of the external-user admission-control core: identity and
entitlement resolution, per-user-per-channel quota ledger, and per-channel
rate admission, shallowly embedded from the Go sources
`middleware/external_user_auth.go` and `service/channel_rate_limit.go`.

Modelling conventions:
* machine integers (Go `int`, `int64`) are Lean `Int`;
* JSON documents are an inductive `Json`; `encoding/json.Unmarshal` into a
  struct is an all-or-nothing decoder returning `Option`;
* the key-value store is a function from keys to read outcomes plus a
  function saying which SET calls fail at the transport level;
* wall-clock time is passed explicitly (`now` in epoch seconds, the current
  month label, and for rate limiting the current day / hour-minute labels).
-/

/-- JSON values as decoded by `encoding/json` into `interface\x7b\x7d`:
numbers are modelled as `Int` (the fractional part plays no role in any
verified property). -/
inductive Json where
  | null
  | bool (b : Bool)
  | num (n : Int)
  | str (s : String)
  | arr (elems : List Json)
  | obj (fields : List (String × Json))

/-- Field lookup in a decoded JSON object; the last binding wins, matching
`encoding/json`, which lets later duplicate keys override earlier ones. -/
def lookupField : List (String × Json) → String → Option Json
  | [], _ => none
  | (k, v) :: rest, key =>
    match lookupField rest key with
    | some r => some r
    | none => if k = key then some v else none

/-- Remove every binding of `key` from a decoded JSON object. -/
def removeField : List (String × Json) → String → List (String × Json)
  | [], _ => []
  | (k, v) :: rest, key =>
    if k = key then removeField rest key else (k, v) :: removeField rest key

/-- Whether a JSON value is a number (a `float64` after Go decoding). -/
def Json.isNum : Json → Bool
  | .num _ => true
  | _ => false

/-- Decode a string-typed struct field: absent or `null` gives the Go zero
value `""`; a present non-string value is a type error. -/
def strField (fs : List (String × Json)) (k : String) : Option String :=
  match lookupField fs k with
  | none => some ""
  | some Json.null => some ""
  | some (Json.str s) => some s
  | some _ => none

/-- Decode a bool-typed struct field (zero value `false`). -/
def boolField (fs : List (String × Json)) (k : String) : Option Bool :=
  match lookupField fs k with
  | none => some false
  | some Json.null => some false
  | some (Json.bool b) => some b
  | some _ => none

/-- Decode an integer-typed struct field (zero value `0`). -/
def intField (fs : List (String × Json)) (k : String) : Option Int :=
  match lookupField fs k with
  | none => some 0
  | some Json.null => some 0
  | some (Json.num n) => some n
  | some _ => none

/-- Go `UserQuota` from `external_user_auth.go`: consumed count, month label,
last reset time. -/
structure UserQuota where
  usedCount : Int
  monthKey : String
  lastResetAt : Int
deriving DecidableEq, Repr

/-- Go `ExternalUserData` from `external_user_auth.go`. -/
structure ExternalUserData where
  id : String
  email : String
  username : String
  isVip : Bool
  vipExpiresAt : Int
deriving DecidableEq, Repr

/-- A value held in the store: a string that parses as JSON (carried in
decoded form) or a string that is not valid JSON. -/
inductive StoredVal where
  | json (j : Json)
  | raw (s : String)

/-- Whether the stored string is the empty string (`""` is not valid JSON,
so it can only be the `raw` case). -/
def StoredVal.isEmptyStr : StoredVal → Bool
  | .raw s => s = ""
  | .json _ => false

/-- Outcome of a store GET: key absent (`redis.Nil`), value present, or a
transport failure carrying the error message. -/
inductive GetResult where
  | nil
  | ok (v : StoredVal)
  | fail (msg : String)

/-- Store-level errors raised by the adapter functions. Error strings that
originate in Go library errors (JSON decode failures, transport errors) are
carried where the middleware surfaces them and elided otherwise. -/
inductive StoreErr where
  | transport (msg : String)
  | notFound
  | badData
  | badFormat
  | httpError
  | notConfigured
deriving DecidableEq, Repr

/-- The message the middleware obtains from `err.Error()` on a store error.
`transport` carries the underlying message; the other texts mirror the
literals in `external_user_auth.go` (library-generated decode messages are
abbreviated since no verified property inspects them). -/
def storeErrMessage : StoreErr → String
  | .transport m => m
  | .notFound => "用户不存在"
  | .badData => "json unmarshal error"
  | .badFormat => "用户数据格式错误"
  | .httpError => "Redis 返回错误"
  | .notConfigured => "Redis 未配置"

/-- The key-value store: per-key read outcomes and per-key SET transport
outcomes (`setFails k = true` means a SET on `k` fails). -/
structure Store where
  data : String → GetResult
  setFails : String → Bool

/-- Go decode of one integer field into an existing target value, returning
the new value and whether a type error occurred: an absent key or a JSON
null leaves the target untouched with no error, a number sets it, and any
other type is skipped with the error flag set (`Unmarshal` "skips that
field and completes the unmarshaling as best it can"). -/
def intFieldInto (target : Int) (fs : List (String × Json)) (k : String) : Int × Bool :=
  match lookupField fs k with
  | none => (target, false)
  | some Json.null => (target, false)
  | some (Json.num n) => (n, false)
  | some _ => (target, true)

/-- Go decode of one string field into an existing target value (same
skip-on-type-error semantics as `intFieldInto`). -/
def strFieldInto (target : String) (fs : List (String × Json)) (k : String) : String × Bool :=
  match lookupField fs k with
  | none => (target, false)
  | some Json.null => (target, false)
  | some (Json.str s) => (s, false)
  | some _ => (target, true)

/-- Go `json.Unmarshal` of a stored string into an existing `UserQuota`
target, returning the updated record and whether an error was reported:
invalid JSON is a syntax error that leaves the target untouched (`Unmarshal`
validates the whole input before decoding); a top-level null succeeds with
no effect; an object merges each decodable field into the target, skipping
type-mismatched fields while flagging the error; any other top-level type
is a type error with no effect. -/
def unmarshalQuotaInto (v : StoredVal) (q : UserQuota) : UserQuota × Bool :=
  match v with
  | .raw _ => (q, true)
  | .json Json.null => (q, false)
  | .json (Json.obj fs) =>
    let u := intFieldInto q.usedCount fs "usedCount"
    let m := strFieldInto q.monthKey fs "monthKey"
    let l := intFieldInto q.lastResetAt fs "lastResetAt"
    ({ usedCount := u.1, monthKey := m.1, lastResetAt := l.1 }, u.2 || m.2 || l.2)
  | .json _ => (q, true)

/-- The Go zero value `var quota UserQuota`. -/
def zeroQuota : UserQuota := { usedCount := 0, monthKey := "", lastResetAt := 0 }

/-- Go `json.Unmarshal` of a stored string into `ExternalUserData`. -/
def unmarshalUserVal : StoredVal → Option ExternalUserData
  | .raw _ => none
  | .json (Json.obj fs) => do
    let id ← strField fs "id"
    let email ← strField fs "email"
    let username ← strField fs "username"
    let vip ← boolField fs "isVip"
    let exp ← intField fs "vipExpiresAt"
    pure { id := id, email := email, username := username, isVip := vip, vipExpiresAt := exp }
  | .json _ => none

/-- Go `json.Marshal` of a `UserQuota` (always succeeds). -/
def marshalQuotaVal (q : UserQuota) : StoredVal :=
  .json (Json.obj [("usedCount", Json.num q.usedCount),
                   ("monthKey", Json.str q.monthKey),
                   ("lastResetAt", Json.num q.lastResetAt)])

/-- The quota key from `getUserChannelQuota` / `saveUserChannelQuota`: the
channel-scoped key, degrading to the legacy global key when no channel id is
supplied. -/
def quotaKey (userId channelId : String) : String :=
  if channelId = "" then "quota:" ++ userId
  else "quota:" ++ userId ++ ":channel:" ++ channelId

/-- The synthesized quota record `UserQuota\x7bMonthKey: now.Format("2006-01")\x7d`:
zero used count, current month, zero reset time. -/
def freshQuota (currentMonth : String) : UserQuota :=
  { usedCount := 0, monthKey := currentMonth, lastResetAt := 0 }

/-- A SET on the store: transport failure leaves the store unchanged and
returns the error; success stores the marshalled record. -/
def storeSet (st : Store) (key : String) (q : UserQuota) : Except StoreErr Unit × Store :=
  if st.setFails key then (.error (.transport "set failed"), st)
  else (.ok (), { st with data := fun k => if k = key then .ok (marshalQuotaVal q) else st.data k })

/-- Go `getUserFromRedis` (local-Redis branch of `external_user_auth.go`,
lines 299-324): authoritative user lookup. -/
def getUserFromRedis (st : Store) (enabled : Bool) (userId : String) : Except StoreErr ExternalUserData :=
  if ¬ enabled then .error .notConfigured
  else
    match st.data ("user:" ++ userId) with
    | .nil => .error .notFound
    | .fail m => .error (.transport m)
    | .ok v =>
      match unmarshalUserVal v with
      | none => .error .badData
      | some u => .ok u

/-- Go `getUserChannelQuota` (local-Redis branch, lines 354-380): absent
key yields a fresh record; a decode error discards the partial decode and
yields a fresh record; an error-free decode (including a stored null, which
leaves the zero value) is returned as decoded; only a transport failure is
an error. -/
def getUserChannelQuota (st : Store) (enabled : Bool) (userId channelId currentMonth : String) :
    Except StoreErr UserQuota :=
  if ¬ enabled then .ok (freshQuota currentMonth)
  else
    match st.data (quotaKey userId channelId) with
    | .nil => .ok (freshQuota currentMonth)
    | .fail m => .error (.transport m)
    | .ok v =>
      let r := unmarshalQuotaInto v zeroQuota
      if r.2 then .ok (freshQuota currentMonth) else .ok r.1

/-- Go `saveUserChannelQuota` (local-Redis branch, lines 407-427): marshal the
record (always succeeds) and SET it under the channel-scoped key. -/
def saveUserChannelQuota (st : Store) (enabled : Bool) (userId channelId : String) (q : UserQuota) :
    Except StoreErr Unit × Store :=
  if ¬ enabled then (.error .notConfigured, st)
  else storeSet st (quotaKey userId channelId) q

/-- The month-rollover normalization performed by the orchestrator right
after the quota read (`ExternalUserAuth`, lines 211-216): a stale month
label resets the count to 0, adopts the current month and stamps the reset
time. -/
def rolloverNormalizeQuota (q : UserQuota) (currentMonth : String) (now : Int) : UserQuota :=
  if q.monthKey ≠ currentMonth then
    { usedCount := 0, monthKey := currentMonth, lastResetAt := now }
  else q

/-- The Quota Ledger `read` as the admission path performs it
(`ExternalUserAuth`, lines 204-216): store read followed by month-rollover
normalization. The source performs no SET on this path, so the store
component is returned unchanged. -/
def readUserChannelQuotaNormalized (st : Store) (enabled : Bool)
    (userId channelId currentMonth : String) (now : Int) :
    Except StoreErr UserQuota × Store :=
  match getUserChannelQuota st enabled userId channelId currentMonth with
  | .error e => (.error e, st)
  | .ok q => (.ok (rolloverNormalizeQuota q currentMonth now), st)

/-! ## Identity Resolver (`verifyExternalJWT`, lines 251-295) -/

/-- Identity-resolution errors, with the messages of `external_user_auth.go`. -/
inductive AuthErr where
  | invalidFormat
  | undecodablePayload
  | unparseablePayload
  | expired
  | missingIdentity
deriving DecidableEq, Repr

/-- Go `err.Error()` for an identity-resolution error. -/
def authErrMessage : AuthErr → String
  | .invalidFormat => "无效的 token 格式"
  | .undecodablePayload => "无法解码 token payload"
  | .unparseablePayload => "无法解析 token payload"
  | .expired => "token 已过期"
  | .missingIdentity => "token 中缺少用户信息"

/-- The bearer credential after the purely syntactic front end of
`verifyExternalJWT` (dot-splitting, base64 decoding of the middle segment,
JSON decoding into a claims map), which is abstracted into the input:
`claims cs` holds exactly when all three steps succeeded with object `cs`. -/
inductive TokenPayload where
  | malformedFormat
  | undecodable
  | unparseable
  | claims (cs : List (String × Json))

/-- The `exp` check of `verifyExternalJWT` (lines 270-274): only a numeric
`exp` claim strictly below the current time trips the expiry error. -/
def expiredCheck (cs : List (String × Json)) (now : Int) : Bool :=
  match lookupField cs "exp" with
  | some (Json.num e) => e < now
  | _ => false

/-- Go `claims[k].(string)` with the failed-assertion zero value `""`. -/
def strClaim (cs : List (String × Json)) (k : String) : String :=
  match lookupField cs k with
  | some (Json.str s) => s
  | _ => ""

/-- The claims-processing stage of `verifyExternalJWT` (lines 265-294):
expiry check, identity presence check, authoritative store lookup with the
claims-only fallback on lookup failure. -/
def resolveFromClaims (cs : List (String × Json)) (now : Int) (st : Store) (enabled : Bool) :
    Except AuthErr ExternalUserData :=
  if expiredCheck cs now then .error .expired
  else
    let userId := strClaim cs "userId"
    let email := strClaim cs "email"
    if userId = "" ∧ email = "" then .error .missingIdentity
    else
      match getUserFromRedis st enabled userId with
      | .ok u => .ok u
      | .error _ =>
        .ok { id := userId, email := email,
              username := if email ≠ "" then (email.splitOn "@").headD "" else "",
              isVip := false, vipExpiresAt := 0 }

/-- Go `verifyExternalJWT` (lines 251-295) over the structured credential. -/
def verifyExternalJWT (p : TokenPayload) (now : Int) (st : Store) (enabled : Bool) :
    Except AuthErr ExternalUserData :=
  match p with
  | .malformedFormat => .error .invalidFormat
  | .undecodable => .error .undecodablePayload
  | .unparseable => .error .unparseablePayload
  | .claims cs => resolveFromClaims cs now st enabled

/-! ## Admission Orchestrator (`ExternalUserAuth`, lines 110-242) -/

/-- The configuration fields the per-request path consults. -/
structure Config where
  enabled : Bool
  monthlyQuota : Int
deriving DecidableEq, Repr

/-- The request inputs of the middleware: the bearer credential header
(`none` means the header is empty) and the channel-policy headers. -/
structure Request where
  token : Option TokenPayload
  channelId : String
  channelName : String
  quotaEnabledStr : String
  quotaLimitStr : String

/-- The quota response annotations (`X-Quota-Status`, `X-Quota-Used`,
`X-Quota-Total`, `X-Quota-Remaining`, `X-Channel-Id`). -/
structure QuotaHeaders where
  status : String
  used : Int
  total : Int
  remaining : Int
  channelId : String
deriving DecidableEq, Repr

/-- The per-request decision: abort with an HTTP status and message, or let
the request proceed with the quota annotations. -/
inductive Decision where
  | reject (httpStatus : Nat) (message : String)
  | allow (headers : QuotaHeaders)
deriving DecidableEq, Repr

/-- Digit-string evaluation for `strconv.Atoi` (empty digit run fails). -/
def digitsValAux : List Char → Nat → Option Nat
  | [], acc => some acc
  | c :: cs, acc => if c.isDigit then digitsValAux cs (10 * acc + (c.toNat - 48)) else none

/-- All-digits value of a nonempty character run. -/
def digitsVal : List Char → Option Nat
  | [] => none
  | cs => digitsValAux cs 0

/-- Go `strconv.Atoi`: optional sign followed by a nonempty digit run. -/
def goAtoi (s : String) : Option Int :=
  match s.data with
  | '+' :: rest => (digitsVal rest).map (fun n => (n : Int))
  | '-' :: rest => (digitsVal rest).map (fun n => -(n : Int))
  | l => (digitsVal l).map (fun n => (n : Int))

/-- The effective channel quota limit (lines 138-143): parse
`X-Channel-Quota-Limit` if nonempty, keeping the global default on parse
failure or absence. -/
def effectiveQuotaLimit (cfg : Config) (req : Request) : Int :=
  if req.quotaLimitStr ≠ "" then
    match goAtoi req.quotaLimitStr with
    | some parsed => parsed
    | none => cfg.monthlyQuota
  else cfg.monthlyQuota

/-- Go `ExternalUserAuth` (lines 110-242): the per-request decision pipeline.
Returns the decision together with the resulting store (only the debit save
can change it). -/
def externalUserAuth (cfg : Config) (req : Request) (st : Store) (now : Int)
    (currentMonth : String) : Decision × Store :=
  if ¬ cfg.enabled then
    (.reject 503 "服务未正确配置，请联系管理员 (Redis 未配置)", st)
  else
    match req.token with
    | none => (.reject 401 "请先登录后再使用 API", st)
    | some tok =>
      let quotaEnabled := req.quotaEnabledStr ≠ "false"
      let quotaLimit := effectiveQuotaLimit cfg req
      match verifyExternalJWT tok now st cfg.enabled with
      | .error e => (.reject 401 ("外部用户验证失败: " ++ authErrMessage e), st)
      | .ok userData =>
        if (userData.isVip = true ∧ userData.vipExpiresAt > now) ∨ userData.username = "admin" then
          (.allow { status := "vip", used := 0, total := -1, remaining := -1,
                    channelId := req.channelId }, st)
        else if ¬ quotaEnabled then
          (.allow { status := "disabled", used := 0, total := -1, remaining := -1,
                    channelId := req.channelId }, st)
        else if quotaLimit = -1 then
          (.allow { status := "unlimited", used := 0, total := -1, remaining := -1,
                    channelId := req.channelId }, st)
        else
          match readUserChannelQuotaNormalized st cfg.enabled userData.id req.channelId
              currentMonth now with
          | (.error e, st1) =>
            (.reject 500 ("获取用户配额失败: " ++ storeErrMessage e), st1)
          | (.ok quota1, st1) =>
            if quota1.usedCount ≥ quotaLimit then
              (.reject 429 ("渠道「" ++ req.channelName ++ "」本月调用次数已用完 (" ++
                toString quota1.usedCount ++ "/" ++ toString quotaLimit ++
                ")，请升级 VIP 或切换其他渠道"), st1)
            else
              let quota2 := { quota1 with usedCount := quota1.usedCount + 1 }
              let saved := saveUserChannelQuota st1 cfg.enabled userData.id req.channelId quota2
              (.allow { status := "active", used := quota2.usedCount, total := quotaLimit,
                        remaining := quotaLimit - quota2.usedCount,
                        channelId := req.channelId }, saved.2)

/-! ## REST-command transport (`Upstash` functions, lines 505-721) -/

/-- The response body as the adapter processes it: either `io.ReadAll`
failed, or the bytes were read and `json.Unmarshal` into the
`Result interface\x7b\x7d` envelope either failed (`badJson`) or produced an
envelope whose `result` field is absent-or-null (`none`) or present. -/
inductive UpstashResult where
  | strVal (v : StoredVal)
  | objVal (fields : List (String × Json))
  | otherVal (j : Json)

/-- A successfully read response body. -/
inductive RespBody where
  | badJson (s : String)
  | envelope (result : Option UpstashResult)

/-- Reading the response body of a completed HTTP exchange. -/
inductive BodyRead where
  | readErr (msg : String)
  | ok (b : RespBody)

/-- Outcome of one outbound HTTP call: a network error from `client.Do`,
or a response with its status code and body. -/
inductive HttpResult where
  | netErr (msg : String)
  | resp (status : Nat) (body : BodyRead)

/-- Go `getUserFromUpstash` (lines 505-556) as a function of the HTTP
exchange. -/
def getUserFromUpstash (r : HttpResult) : Except StoreErr ExternalUserData :=
  match r with
  | .netErr m => .error (.transport m)
  | .resp _ (.readErr m) => .error (.transport m)
  | .resp _ (.ok (.badJson _)) => .error .badData
  | .resp _ (.ok (.envelope none)) => .error .notFound
  | .resp _ (.ok (.envelope (some res))) =>
    match res with
    | .strVal v =>
      if v.isEmptyStr then .error .notFound
      else
        match unmarshalUserVal v with
        | none => .error .badData
        | some u => .ok u
    | .objVal fs =>
      match unmarshalUserVal (.json (Json.obj fs)) with
      | none => .error .badData
      | some u => .ok u
    | .otherVal _ => .error .badFormat

/-- Go `getChannelQuotaFromUpstash` (lines 624-666): note that after a
well-formed envelope is decoded, the function always succeeds — the
unmarshal of a string-typed result into the pre-initialized fresh record is
attempted with its error ignored, so decodable fields are merged into that
record (a partially valid value is NOT reset); every other (or absent)
result shape falls through to the fresh record. -/
def getChannelQuotaFromUpstash (r : HttpResult) (currentMonth : String) :
    Except StoreErr UserQuota :=
  match r with
  | .netErr m => .error (.transport m)
  | .resp _ (.readErr m) => .error (.transport m)
  | .resp _ (.ok (.badJson _)) => .error .badData
  | .resp _ (.ok (.envelope res)) =>
    let quota := freshQuota currentMonth
    match res with
    | some (.strVal v) =>
      if ¬ v.isEmptyStr then .ok (unmarshalQuotaInto v quota).1
      else .ok quota
    | _ => .ok quota

/-- Go `saveChannelQuotaToUpstash` (lines 668-699): a non-200 status is an
error (the body is read only to build the message, its read error
ignored). -/
def saveChannelQuotaToUpstash (r : HttpResult) : Except StoreErr Unit :=
  match r with
  | .netErr m => .error (.transport m)
  | .resp status _ =>
    if status ≠ 200 then .error .httpError
    else .ok ()

/-- Go `setUserToUpstash` (lines 701-721): after `client.Do` succeeds the
function returns `nil` unconditionally — the status code and body are never
inspected. -/
def setUserToUpstash (r : HttpResult) : Except StoreErr Unit :=
  match r with
  | .netErr m => .error (.transport m)
  | .resp _ _ => .ok ()

/-! ## Channel Rate Admission (`service/channel_rate_limit.go`) -/

/-- The wall-clock labels used by the rate limiter. The Go minute key
`now.Format("2006-01-02-15-04")` is the day key `now.Format("2006-01-02")`
followed by the hour-minute part; it is modelled as the pair
`(day, hm)` so that distinct days give distinct minute keys. -/
structure Now where
  day : String
  hm : String
deriving DecidableEq, Repr

/-- Go `ChannelRateLimitInfo` from `channel_rate_limit.go`. -/
structure ChannelRateLimitInfo where
  channelID : Int
  keyIndex : Int
  rpmCount : Int
  rpdCount : Int
  rpmLimit : Int
  rpdLimit : Int
  rpmRemaining : Int
  rpdRemaining : Int
  lastMinuteKey : String × String
  lastDayKey : String
deriving DecidableEq, Repr

/-- The in-memory table `channelRateLimitStore`, as an association list. -/
abbrev RateTable := List (String × ChannelRateLimitInfo)

/-- Map read. -/
def tblLookup : RateTable → String → Option ChannelRateLimitInfo
  | [], _ => none
  | (k, v) :: rest, key => if k = key then some v else tblLookup rest key

/-- Map write (replace or append). -/
def tblInsert : RateTable → String → ChannelRateLimitInfo → RateTable
  | [], key, v => [(key, v)]
  | (k, w) :: rest, key, v =>
    if k = key then (key, v) :: rest else (k, w) :: tblInsert rest key v

/-- Go `getChannelRateLimitKey` (lines 32-34). -/
def getChannelRateLimitKey (channelID keyIndex : Int) : String :=
  "channel_rate_limit:" ++ toString channelID ++ ":" ++ toString keyIndex

/-- The record created on first observation of a (channel, key-slot) pair
(lines 47-57 / 131-141): zero counts, current labels, Go zero values for
the remaining fields. -/
def freshRateInfo (channelID keyIndex rpmLimit rpdLimit : Int) (now : Now) :
    ChannelRateLimitInfo :=
  { channelID := channelID, keyIndex := keyIndex, rpmCount := 0, rpdCount := 0,
    rpmLimit := rpmLimit, rpdLimit := rpdLimit, rpmRemaining := 0, rpdRemaining := 0,
    lastMinuteKey := (now.day, now.hm), lastDayKey := now.day }

/-- The minute-rollover block (lines 61-64 / 145-148): a stale minute label
zeroes the minute count and adopts the new label. -/
def rolloverMinute (info : ChannelRateLimitInfo) (now : Now) : ChannelRateLimitInfo :=
  if info.lastMinuteKey ≠ (now.day, now.hm) then
    { info with rpmCount := 0, lastMinuteKey := (now.day, now.hm) }
  else info

/-- The day-rollover block (lines 67-70 / 151-154): a stale day label zeroes
the day count and adopts the new label. -/
def rolloverDay (info : ChannelRateLimitInfo) (now : Now) : ChannelRateLimitInfo :=
  if info.lastDayKey ≠ now.day then
    { info with rpdCount := 0, lastDayKey := now.day }
  else info

/-- The rollover normalization duplicated at lines 60-70 and 144-154: the
minute block followed by the day block. -/
def rolloverInfo (info : ChannelRateLimitInfo) (now : Now) : ChannelRateLimitInfo :=
  rolloverDay (rolloverMinute info now) now

/-- Go `GetChannelRateLimitInfo` (lines 37-96): lazy creation, rollover
normalization, refresh of the denormalized limits, and computation of the
clamped remaining counts, all under the exclusive lock; the mutated record
is the one left in the table. -/
def getChannelRateLimitInfoS (tbl : RateTable) (channelID keyIndex rpmLimit rpdLimit : Int)
    (now : Now) : ChannelRateLimitInfo × RateTable :=
  let key := getChannelRateLimitKey channelID keyIndex
  let info0 :=
    match tblLookup tbl key with
    | some i => i
    | none => freshRateInfo channelID keyIndex rpmLimit rpdLimit now
  let info1 := rolloverInfo info0 now
  let info2 := { info1 with rpmLimit := rpmLimit, rpdLimit := rpdLimit }
  let info3 := { info2 with
    rpmRemaining :=
      if rpmLimit > 0 then
        (if rpmLimit - info2.rpmCount < 0 then 0 else rpmLimit - info2.rpmCount)
      else -1,
    rpdRemaining :=
      if rpdLimit > 0 then
        (if rpdLimit - info2.rpdCount < 0 then 0 else rpdLimit - info2.rpdCount)
      else -1 }
  (info3, tblInsert tbl key info3)

/-- Go `CheckChannelRateLimit` (lines 100-118): no-limit fast path, then the
limit evaluation against the normalized counts. -/
def checkChannelRateLimit (tbl : RateTable) (channelID keyIndex rpmLimit rpdLimit : Int)
    (now : Now) : (Bool × String) × RateTable :=
  if rpmLimit ≤ 0 ∧ rpdLimit ≤ 0 then ((true, ""), tbl)
  else
    let r := getChannelRateLimitInfoS tbl channelID keyIndex rpmLimit rpdLimit now
    let info := r.1
    if rpmLimit > 0 ∧ info.rpmCount ≥ rpmLimit then
      ((false, "渠道 " ++ toString channelID ++ " (key " ++ toString keyIndex ++
        ") 已达到每分钟请求限制 (" ++ toString info.rpmCount ++ "/" ++ toString rpmLimit ++ ")"),
       r.2)
    else if rpdLimit > 0 ∧ info.rpdCount ≥ rpdLimit then
      ((false, "渠道 " ++ toString channelID ++ " (key " ++ toString keyIndex ++
        ") 已达到每天请求限制 (" ++ toString info.rpdCount ++ "/" ++ toString rpdLimit ++ ")"),
       r.2)
    else ((true, ""), r.2)

/-- Go `IncrementChannelRateLimit` (lines 121-164): lazy creation, rollover
normalization, then both counters are incremented. -/
def incrementChannelRateLimit (tbl : RateTable) (channelID keyIndex rpmLimit rpdLimit : Int)
    (now : Now) : RateTable :=
  let key := getChannelRateLimitKey channelID keyIndex
  let info0 :=
    match tblLookup tbl key with
    | some i => i
    | none => freshRateInfo channelID keyIndex rpmLimit rpdLimit now
  let info1 := rolloverInfo info0 now
  let info2 := { info1 with rpmCount := info1.rpmCount + 1, rpdCount := info1.rpdCount + 1 }
  tblInsert tbl key info2

/-- Go `GetAllChannelRateLimitInfo` (lines 167-176): a shallow copy of the
table under the shared lock, with no normalization. -/
def getAllChannelRateLimitInfo (tbl : RateTable) : RateTable := tbl

/-- The Go prefix test `len(k) >= len(p) && k[:len(p)] == p`. -/
def hasKeyPfx (k p : String) : Bool :=
  k.data.take p.data.length == p.data

/-- Go `GetChannelRateLimitInfoByChannelID` (lines 179-191): the stored records
whose key carries the channel prefix, under the shared lock, with no
normalization. -/
def getChannelRateLimitInfoByChannelID (tbl : RateTable) (channelID : Int) :
    List ChannelRateLimitInfo :=
  (tbl.filter (fun p => hasKeyPfx p.1 ("channel_rate_limit:" ++ toString channelID ++ ":"))).map
    (fun p => p.2)

/-- Lock events on the table-wide `sync.RWMutex`. -/
inductive LockEvent where
  | acqExclusive
  | relExclusive
  | acqShared
  | relShared
deriving DecidableEq, Repr

/-- Lock trace of `GetChannelRateLimitInfo`: one exclusive section
(`Lock` / deferred `Unlock`, lines 42-43). -/
def getChannelRateLimitInfoLocks : List LockEvent := [.acqExclusive, .relExclusive]

/-- Lock trace of `CheckChannelRateLimit`: nothing on the no-limit fast
path, otherwise exactly the locking of `GetChannelRateLimitInfo`. -/
def checkChannelRateLimitLocks (rpmLimit rpdLimit : Int) : List LockEvent :=
  if rpmLimit ≤ 0 ∧ rpdLimit ≤ 0 then [] else getChannelRateLimitInfoLocks

/-- Lock trace of `IncrementChannelRateLimit`: its own exclusive section
(lines 126-127). -/
def incrementChannelRateLimitLocks : List LockEvent := [.acqExclusive, .relExclusive]

/-- Modelled from the spec: the check-and-record sequence of §4.4 — the
caller that runs `CheckChannelRateLimit` and, on acceptance,
`IncrementChannelRateLimit`; the dispatch-path caller itself is not among
the provided sources. -/
def checkAndRecord (tbl : RateTable) (channelID keyIndex rpmLimit rpdLimit : Int)
    (now : Now) : (Bool × String) × RateTable :=
  let r := checkChannelRateLimit tbl channelID keyIndex rpmLimit rpdLimit now
  if r.1.1 then
    (r.1, incrementChannelRateLimit r.2 channelID keyIndex rpmLimit rpdLimit now)
  else r

/-- Lock trace of one check-and-record: the trace of the check followed, on
acceptance, by the trace of the increment. -/
def checkAndRecordLocks (tbl : RateTable) (channelID keyIndex rpmLimit rpdLimit : Int)
    (now : Now) : List LockEvent :=
  let r := checkChannelRateLimit tbl channelID keyIndex rpmLimit rpdLimit now
  checkChannelRateLimitLocks rpmLimit rpdLimit ++
    (if r.1.1 then incrementChannelRateLimitLocks else [])

/-- Number of exclusive lock acquisitions in a trace. -/
def exclusiveAcquisitions (evs : List LockEvent) : Nat :=
  (evs.filter (fun e => e = LockEvent.acqExclusive)).length

/-! ## Helper lemmas -/

/-- Rollover across a minute boundary only: the minute counter is zeroed and
its label refreshed; everything else is untouched. -/
theorem rolloverInfo_minute_stale (info : ChannelRateLimitInfo) (now : Now)
    (hm : info.lastMinuteKey ≠ (now.day, now.hm)) (hd : info.lastDayKey = now.day) :
    rolloverInfo info now = { info with rpmCount := 0, lastMinuteKey := (now.day, now.hm) } := by
  unfold rolloverInfo rolloverMinute rolloverDay
  rw [if_pos hm]
  simp [hd]

/-- Rollover across a day boundary (for a consistent record, whose stored
minute label carries its stored day label): both counters are zeroed and
both labels refreshed; everything else is untouched. -/
theorem rolloverInfo_day_stale (info : ChannelRateLimitInfo) (now : Now)
    (hd : info.lastDayKey ≠ now.day) (hcons : info.lastMinuteKey.1 = info.lastDayKey) :
    rolloverInfo info now
      = { info with
          rpmCount := 0, rpdCount := 0,
          lastMinuteKey := (now.day, now.hm), lastDayKey := now.day } := by
  have hm : info.lastMinuteKey ≠ (now.day, now.hm) := by
    intro h
    apply hd
    rw [← hcons, h]
  unfold rolloverInfo rolloverMinute rolloverDay
  rw [if_pos hm]
  simp [hd]

/-- A stale minute label always leaves the normalized minute count at 0. -/
theorem rolloverInfo_rpmCount_zero (info : ChannelRateLimitInfo) (now : Now)
    (hm : info.lastMinuteKey ≠ (now.day, now.hm)) :
    (rolloverInfo info now).rpmCount = 0 := by
  have hday : ∀ x : ChannelRateLimitInfo, (rolloverDay x now).rpmCount = x.rpmCount := by
    intro x
    unfold rolloverDay
    split <;> rfl
  unfold rolloverInfo
  rw [hday]
  unfold rolloverMinute
  rw [if_pos hm]

/-- A stale day label on a consistent record leaves the normalized day
count at 0. -/
theorem rolloverInfo_rpdCount_zero (info : ChannelRateLimitInfo) (now : Now)
    (hd : info.lastDayKey ≠ now.day) (hcons : info.lastMinuteKey.1 = info.lastDayKey) :
    (rolloverInfo info now).rpdCount = 0 := by
  rw [rolloverInfo_day_stale info now hd hcons]

/-! ## Claim theorems -/

/-- Claim C8 (confirmed): crossing only a minute boundary zeroes only the
minute counter and refreshes only the minute label; crossing a day boundary
(on a record whose minute label carries its day label, which is how every
record is created and updated) zeroes both counters; all other fields —
channel id, key-slot, limits — are unchanged by rollover. -/
theorem rollover_minute_resets_minute_day_resets_both (info : ChannelRateLimitInfo) (now : Now) :
    (info.lastMinuteKey ≠ (now.day, now.hm) → info.lastDayKey = now.day →
      rolloverInfo info now = { info with rpmCount := 0, lastMinuteKey := (now.day, now.hm) })
    ∧ (info.lastDayKey ≠ now.day → info.lastMinuteKey.1 = info.lastDayKey →
      rolloverInfo info now
        = { info with
            rpmCount := 0, rpdCount := 0,
            lastMinuteKey := (now.day, now.hm), lastDayKey := now.day }) :=
  ⟨fun hm hd => rolloverInfo_minute_stale info now hm hd,
   fun hd hcons => rolloverInfo_day_stale info now hd hcons⟩

/-- Sample record for the C8 witness: stored labels one minute (and, for the
day part, one day) behind. -/
def infoW8 : ChannelRateLimitInfo :=
  { channelID := 3, keyIndex := 1, rpmCount := 4, rpdCount := 20, rpmLimit := 10, rpdLimit := 50,
    rpmRemaining := 6, rpdRemaining := 30,
    lastMinuteKey := ("2024-02-01", "09-59"), lastDayKey := "2024-02-01" }

/-- Witness for C8 at concrete inputs: a minute-only rollover keeps the day
count 20, and a day rollover zeroes both. -/
theorem rollover_minute_resets_minute_day_resets_both_witness :
    rolloverInfo infoW8 { day := "2024-02-01", hm := "10-00" }
      = { infoW8 with rpmCount := 0, lastMinuteKey := ("2024-02-01", "10-00") }
    ∧ rolloverInfo infoW8 { day := "2024-02-02", hm := "00-00" }
      = { infoW8 with
          rpmCount := 0, rpdCount := 0,
          lastMinuteKey := ("2024-02-02", "00-00"), lastDayKey := "2024-02-02" } :=
  ⟨(rollover_minute_resets_minute_day_resets_both infoW8
      { day := "2024-02-01", hm := "10-00" }).1 (by decide) (by decide),
   (rollover_minute_resets_minute_day_resets_both infoW8
      { day := "2024-02-02", hm := "00-00" }).2 (by decide) (by decide)⟩

/-- Claim C3 (confirmed): when the month label of the stored quota record differs
from the current month, the admission-path quota read returns the record
with consumed count 0 and the current month label (stamping the reset
time), and the read itself leaves the store unchanged — persistence happens
only through the explicit debit save. -/
theorem quota_read_normalizes_stale_month (st : Store) (userId channelId month : String)
    (now : Int) (q : UserQuota)
    (hget : getUserChannelQuota st true userId channelId month = .ok q)
    (hstale : q.monthKey ≠ month) :
    readUserChannelQuotaNormalized st true userId channelId month now
      = (.ok { usedCount := 0, monthKey := month, lastResetAt := now }, st) := by
  unfold readUserChannelQuotaNormalized
  rw [hget]
  show (Except.ok (rolloverNormalizeQuota q month now), st) = _
  unfold rolloverNormalizeQuota
  rw [if_pos hstale]

/-- Store holding a quota record from the previous month under the legacy
global key. -/
def stW3 : Store :=
  { data := fun k =>
      if k = "quota:u1" then
        .ok (marshalQuotaVal { usedCount := 7, monthKey := "2024-04", lastResetAt := 5 })
      else .nil,
    setFails := fun _ => false }

/-- Witness for C3: the stale April record reads back as used 7, and the
normalized read returns count 0 with the May label, store untouched. -/
theorem quota_read_normalizes_stale_month_witness :
    getUserChannelQuota stW3 true "u1" "" "2024-05"
      = .ok { usedCount := 7, monthKey := "2024-04", lastResetAt := 5 }
    ∧ readUserChannelQuotaNormalized stW3 true "u1" "" "2024-05" 99
      = (.ok { usedCount := 0, monthKey := "2024-05", lastResetAt := 99 }, stW3) :=
  ⟨rfl, quota_read_normalizes_stale_month stW3 "u1" "" "2024-05" 99
    { usedCount := 7, monthKey := "2024-04", lastResetAt := 5 } rfl (by decide)⟩

/-- A stored quota value with a well-typed usedCount 7 but a number-typed
monthKey: it does not decode as a valid quota record (type error). -/
def corruptQuotaVal : StoredVal :=
  .json (Json.obj [("usedCount", Json.num 7), ("monthKey", Json.num 123)])

/-- Counterexample for C10: this stored value does not decode as a valid
quota record (the decode reports an error), yet the REST-path quota read
returns consumed-count 7 with the current month label — not the fresh
all-zero record, and no silent reset to 0. -/
theorem rest_quota_partial_populate_counterexample :
    (unmarshalQuotaInto corruptQuotaVal (freshQuota "2024-05")).2 = true
    ∧ getChannelQuotaFromUpstash
        (.resp 200 (.ok (.envelope (some (.strVal corruptQuotaVal))))) "2024-05"
      = .ok { usedCount := 7, monthKey := "2024-05", lastResetAt := 0 }
    ∧ ({ usedCount := 7, monthKey := "2024-05", lastResetAt := 0 } : UserQuota)
      ≠ freshQuota "2024-05" := ⟨rfl, rfl, by decide⟩

/-- Claim C10 (corrected): the two paths treat an undecodable stored quota
value differently, and neither errors. On the local path a decode error
discards the partial decode and returns the fresh all-zero current-month
record, while an error-free decode is returned as decoded — in particular a
stored JSON null is not an error and reads back as the Go zero record with
empty month label, not the current one. On the REST path the decode error
is ignored and whatever fields did decode are merged into the
pre-initialized fresh record, so a partially valid value keeps its decoded
consumed-count instead of resetting to 0. -/
theorem corrupt_quota_record_paths (st : Store) (userId channelId month : String)
    (v : StoredVal)
    (hst : st.data (quotaKey userId channelId) = .ok v) :
    ((unmarshalQuotaInto v zeroQuota).2 = true →
      getUserChannelQuota st true userId channelId month = .ok (freshQuota month))
    ∧ (v = .json Json.null →
      getUserChannelQuota st true userId channelId month = .ok zeroQuota)
    ∧ (∀ status : Nat, v.isEmptyStr = false →
      getChannelQuotaFromUpstash (.resp status (.ok (.envelope (some (.strVal v))))) month
        = .ok (unmarshalQuotaInto v (freshQuota month)).1) := by
  refine ⟨?_, ?_, ?_⟩
  · intro hbad
    simp only [getUserChannelQuota, hst, hbad]
    rfl
  · intro hnull
    subst hnull
    simp only [getUserChannelQuota, hst]
    rfl
  · intro status hne
    show (if ¬ (StoredVal.isEmptyStr v) = true then
            Except.ok (unmarshalQuotaInto v (freshQuota month)).1
          else Except.ok (freshQuota month))
        = Except.ok (unmarshalQuotaInto v (freshQuota month)).1
    rw [if_pos]
    rw [hne]
    exact Bool.false_ne_true

/-- Store holding a non-JSON blob under a channel-scoped quota key. -/
def stW10 : Store :=
  { data := fun k =>
      if k = "quota:u2:channel:ch9" then .ok (.raw "not-json!!") else .nil,
    setFails := fun _ => false }

/-- Store holding a JSON null under the legacy global quota key. -/
def stW10b : Store :=
  { data := fun k =>
      if k = "quota:u3" then .ok (.json Json.null) else .nil,
    setFails := fun _ => false }

/-- Witness for the amended C10: a non-JSON blob reads back fresh on the
local path and merged-into-fresh on the REST path, and a stored null reads
back as the zero record with empty month label. -/
theorem corrupt_quota_record_paths_witness :
    getUserChannelQuota stW10 true "u2" "ch9" "2024-05" = .ok (freshQuota "2024-05")
    ∧ getChannelQuotaFromUpstash
        (.resp 200 (.ok (.envelope (some (.strVal (.raw "not-json!!")))))) "2024-05"
      = .ok (unmarshalQuotaInto (.raw "not-json!!") (freshQuota "2024-05")).1
    ∧ getUserChannelQuota stW10b true "u3" "" "2024-05" = .ok zeroQuota := by
  have h := corrupt_quota_record_paths stW10 "u2" "ch9" "2024-05" (.raw "not-json!!") rfl
  have h2 := corrupt_quota_record_paths stW10b "u3" "" "2024-05" (.json Json.null) rfl
  exact ⟨h.1 rfl, h.2.2 200 rfl, h2.2.1 rfl⟩

/-- The user lookup reads only `data`; the SET-outcome component is
irrelevant to it. -/
theorem getUserFromRedis_data_eq (st st2 : Store) (h : st.data = st2.data) (e : Bool)
    (uid : String) :
    getUserFromRedis st e uid = getUserFromRedis st2 e uid := by
  unfold getUserFromRedis
  rw [h]

/-- The quota read reads only `data`. -/
theorem getUserChannelQuota_data_eq (st st2 : Store) (h : st.data = st2.data) (e : Bool)
    (uid cid m : String) :
    getUserChannelQuota st e uid cid m = getUserChannelQuota st2 e uid cid m := by
  unfold getUserChannelQuota
  rw [h]

/-- Identity resolution reads only `data`. -/
theorem verifyExternalJWT_data_eq (p : TokenPayload) (now : Int) (st st2 : Store)
    (h : st.data = st2.data) (e : Bool) :
    verifyExternalJWT p now st e = verifyExternalJWT p now st2 e := by
  cases p with
  | malformedFormat => rfl
  | undecodable => rfl
  | unparseable => rfl
  | claims cs =>
    show resolveFromClaims cs now st e = resolveFromClaims cs now st2 e
    unfold resolveFromClaims
    simp only [getUserFromRedis_data_eq st st2 h]

/-- Claim C4 (confirmed): a credential resolving to a VIP user with expiry
strictly in the future, or to the reserved username "admin", makes the
orchestrator bypass the quota check entirely: the request is admitted
whatever the stored quota state, the store is unchanged (no debit), and the
response carries X-Quota-Status "vip" with used 0 and total/remaining -1. -/
theorem vip_or_admin_bypasses_quota (cfg : Config) (req : Request) (st : Store)
    (now : Int) (month : String) (tok : TokenPayload) (u : ExternalUserData)
    (hen : cfg.enabled = true)
    (htok : req.token = some tok)
    (hverify : verifyExternalJWT tok now st true = .ok u)
    (hclass : (u.isVip = true ∧ u.vipExpiresAt > now) ∨ u.username = "admin") :
    externalUserAuth cfg req st now month
      = (.allow { status := "vip", used := 0, total := -1, remaining := -1,
                  channelId := req.channelId }, st) := by
  unfold externalUserAuth
  rw [hen, htok]
  simp only [hverify]
  rw [if_neg (not_not_intro trivial), if_pos hclass]

/-- Shared sample configuration: enabled, global monthly quota 30. -/
def cfgStd : Config := { enabled := true, monthlyQuota := 30 }

/-- Store for the C4 witness: a VIP user and a quota record already at 999
consumed. -/
def stW4 : Store :=
  { data := fun k =>
      if k = "user:v1" then
        .ok (.json (Json.obj [("id", Json.str "v1"), ("email", Json.str "v@e.c"),
          ("username", Json.str "vip-user"), ("isVip", Json.bool true),
          ("vipExpiresAt", Json.num 2000)]))
      else if k = "quota:v1:channel:ch1" then
        .ok (marshalQuotaVal { usedCount := 999, monthKey := "2024-05", lastResetAt := 1 })
      else .nil,
    setFails := fun _ => false }

/-- Request for the C4 witness. -/
def reqW4 : Request :=
  { token := some (.claims [("userId", Json.str "v1")]), channelId := "ch1",
    channelName := "Main", quotaEnabledStr := "", quotaLimitStr := "3" }

/-- The VIP user of the C4 witness. -/
def uW4 : ExternalUserData :=
  { id := "v1", email := "v@e.c", username := "vip-user", isVip := true, vipExpiresAt := 2000 }

/-- Witness for C4: with a stored consumed count of 999 and channel limit 3,
the VIP user is still admitted with the vip annotations and the store is
untouched. -/
theorem vip_or_admin_bypasses_quota_witness :
    verifyExternalJWT (.claims [("userId", Json.str "v1")]) 1000 stW4 true = .ok uW4
    ∧ externalUserAuth cfgStd reqW4 stW4 1000 "2024-05"
      = (.allow { status := "vip", used := 0, total := -1, remaining := -1,
                  channelId := "ch1" }, stW4) :=
  ⟨rfl, vip_or_admin_bypasses_quota cfgStd reqW4 stW4 1000 "2024-05"
    (.claims [("userId", Json.str "v1")]) uW4 rfl rfl rfl (Or.inl ⟨rfl, by decide⟩)⟩

/-- The admitted-debit path of the orchestrator: under the limit, the
request is admitted with the incremented count in the annotations — the
save outcome is computed but never consulted for the decision. -/
theorem externalUserAuth_debit_allows (cfg : Config) (req : Request) (st : Store)
    (now : Int) (month : String) (tok : TokenPayload) (u : ExternalUserData) (q : UserQuota)
    (hen : cfg.enabled = true)
    (htok : req.token = some tok)
    (hverify : verifyExternalJWT tok now st true = .ok u)
    (hnv : ¬ ((u.isVip = true ∧ u.vipExpiresAt > now) ∨ u.username = "admin"))
    (hqe : req.quotaEnabledStr ≠ "false")
    (hql : effectiveQuotaLimit cfg req ≠ -1)
    (hget : getUserChannelQuota st true u.id req.channelId month = .ok q)
    (hunder : (rolloverNormalizeQuota q month now).usedCount < effectiveQuotaLimit cfg req) :
    (externalUserAuth cfg req st now month).1
      = .allow { status := "active",
                 used := (rolloverNormalizeQuota q month now).usedCount + 1,
                 total := effectiveQuotaLimit cfg req,
                 remaining := effectiveQuotaLimit cfg req
                   - ((rolloverNormalizeQuota q month now).usedCount + 1),
                 channelId := req.channelId } := by
  have hread : readUserChannelQuotaNormalized st true u.id req.channelId month now
      = (.ok (rolloverNormalizeQuota q month now), st) := by
    unfold readUserChannelQuotaNormalized
    rw [hget]
  unfold externalUserAuth
  rw [hen, htok]
  simp only [hverify]
  rw [if_neg (not_not_intro trivial), if_neg hnv, if_neg (not_not_intro hqe), if_neg hql]
  simp only [hread]
  rw [if_neg (not_le.mpr hunder)]

/-- Claim C7 (confirmed): once a standard-user request is admitted under the
limit, the debit succeeds from the point of view of the caller whatever the SET
transport does: the decision is the active admission with the incremented
count in the annotations, and it is the same for every write-failure
pattern `f` substituted into the store. -/
theorem under_limit_debit_ignores_write_failure (cfg : Config) (req : Request) (st : Store)
    (now : Int) (month : String) (tok : TokenPayload) (u : ExternalUserData) (q : UserQuota)
    (hen : cfg.enabled = true)
    (htok : req.token = some tok)
    (hverify : verifyExternalJWT tok now st true = .ok u)
    (hnv : ¬ ((u.isVip = true ∧ u.vipExpiresAt > now) ∨ u.username = "admin"))
    (hqe : req.quotaEnabledStr ≠ "false")
    (hql : effectiveQuotaLimit cfg req ≠ -1)
    (hget : getUserChannelQuota st true u.id req.channelId month = .ok q)
    (hunder : (rolloverNormalizeQuota q month now).usedCount < effectiveQuotaLimit cfg req) :
    (externalUserAuth cfg req st now month).1
      = .allow { status := "active",
                 used := (rolloverNormalizeQuota q month now).usedCount + 1,
                 total := effectiveQuotaLimit cfg req,
                 remaining := effectiveQuotaLimit cfg req
                   - ((rolloverNormalizeQuota q month now).usedCount + 1),
                 channelId := req.channelId }
    ∧ ∀ f : String → Bool,
        (externalUserAuth cfg req { data := st.data, setFails := f } now month).1
          = (externalUserAuth cfg req st now month).1 := by
  have hmain := externalUserAuth_debit_allows cfg req st now month tok u q
    hen htok hverify hnv hqe hql hget hunder
  refine ⟨hmain, fun f => ?_⟩
  have hverify2 : verifyExternalJWT tok now { data := st.data, setFails := f } true = .ok u :=
    (verifyExternalJWT_data_eq tok now { data := st.data, setFails := f } st rfl true).trans hverify
  have hget2 : getUserChannelQuota { data := st.data, setFails := f } true u.id req.channelId month
      = .ok q :=
    (getUserChannelQuota_data_eq { data := st.data, setFails := f } st rfl true u.id
      req.channelId month).trans hget
  have hf := externalUserAuth_debit_allows cfg req { data := st.data, setFails := f } now month
    tok u q hen htok hverify2 hnv hqe hql hget2 hunder
  rw [hf, hmain]

/-- Store for the C7 witness: a standard user, a current-month quota record
at count 1, and a SET transport that always fails. -/
def stW7 : Store :=
  { data := fun k =>
      if k = "user:s1" then
        .ok (.json (Json.obj [("id", Json.str "s1"), ("email", Json.str "s@e.c"),
          ("username", Json.str "alice"), ("isVip", Json.bool false),
          ("vipExpiresAt", Json.num 0)]))
      else if k = "quota:s1:channel:ch2" then
        .ok (marshalQuotaVal { usedCount := 1, monthKey := "2024-05", lastResetAt := 3 })
      else .nil,
    setFails := fun _ => true }

/-- Request for the C7 witness: channel ch2, limit 5. -/
def reqW7 : Request :=
  { token := some (.claims [("userId", Json.str "s1")]), channelId := "ch2",
    channelName := "Alt", quotaEnabledStr := "", quotaLimitStr := "5" }

/-- The standard user of the C7 witness. -/
def uW7 : ExternalUserData :=
  { id := "s1", email := "s@e.c", username := "alice", isVip := false, vipExpiresAt := 0 }

/-- Witness for C7: with every SET failing, the request is still admitted
with used 2 / total 5 / remaining 3. -/
theorem under_limit_debit_ignores_write_failure_witness :
    stW7.setFails (quotaKey "s1" "ch2") = true
    ∧ (externalUserAuth cfgStd reqW7 stW7 1000 "2024-05").1
      = .allow { status := "active", used := 2, total := 5, remaining := 3,
                 channelId := "ch2" } := by
  refine ⟨rfl, ?_⟩
  have h := (under_limit_debit_ignores_write_failure cfgStd reqW7 stW7 1000 "2024-05"
    (.claims [("userId", Json.str "s1")]) uW7 { usedCount := 1, monthKey := "2024-05", lastResetAt := 3 }
    rfl rfl rfl (by decide) (by decide) (by decide) rfl (by decide)).1
  exact h

/-- Store for C1: the user key is absent (the resolver falls back to a
claims-only standard identity) and the channel-scoped quota key fails at the
transport level. -/
def stC1 : Store :=
  { data := fun k =>
      if k = "quota:u1:channel:ch1" then .fail "connection refused" else .nil,
    setFails := fun _ => false }

/-- Request for C1: quota enabled, finite limit 5, channel ch1. -/
def reqC1 : Request :=
  { token := some (.claims [("userId", Json.str "u1")]), channelId := "ch1",
    channelName := "Main", quotaEnabledStr := "", quotaLimitStr := "5" }

/-- Counterexample for C1: at this concrete request — a standard user,
channel quota enabled with finite limit 5, and the quota read failing at
the transport level — the orchestrator rejects with HTTP 500, which is not
the 503 the claim requires. -/
theorem quota_read_failure_rejects_counterexample :
    (externalUserAuth cfgStd reqC1 stC1 100 "2024-05").1
      = .reject 500 "获取用户配额失败: connection refused"
    ∧ (500 : Nat) ≠ 503 := ⟨rfl, by decide⟩

/-- Claim C1 (corrected): for a standard user with channel quota enabled
and a finite limit, a transport failure on the quota read makes the
orchestrator reject the request — but with the internal
StoreTransportFailure outcome (HTTP 500-equivalent), not ServiceUnavailable
(503); the store is left unchanged. -/
theorem quota_read_failure_rejects_500 (cfg : Config) (req : Request) (st : Store)
    (now : Int) (month : String) (tok : TokenPayload) (u : ExternalUserData) (e : StoreErr)
    (hen : cfg.enabled = true)
    (htok : req.token = some tok)
    (hverify : verifyExternalJWT tok now st true = .ok u)
    (hnv : ¬ ((u.isVip = true ∧ u.vipExpiresAt > now) ∨ u.username = "admin"))
    (hqe : req.quotaEnabledStr ≠ "false")
    (hql : effectiveQuotaLimit cfg req ≠ -1)
    (hget : getUserChannelQuota st true u.id req.channelId month = .error e) :
    externalUserAuth cfg req st now month
      = (.reject 500 ("获取用户配额失败: " ++ storeErrMessage e), st) := by
  have hread : readUserChannelQuotaNormalized st true u.id req.channelId month now
      = (.error e, st) := by
    unfold readUserChannelQuotaNormalized
    rw [hget]
  unfold externalUserAuth
  rw [hen, htok]
  simp only [hverify]
  rw [if_neg (not_not_intro trivial), if_neg hnv, if_neg (not_not_intro hqe), if_neg hql]
  simp only [hread]

/-- The fallback standard identity of the C1 witness (user key absent, no
email claim). -/
def uC1 : ExternalUserData :=
  { id := "u1", email := "", username := "", isVip := false, vipExpiresAt := 0 }

/-- Witness for the amended C1 at the concrete inputs of the
counterexample. -/
theorem quota_read_failure_rejects_500_witness :
    getUserChannelQuota stC1 true "u1" "ch1" "2024-05"
      = .error (.transport "connection refused")
    ∧ externalUserAuth cfgStd reqC1 stC1 100 "2024-05"
      = (.reject 500 "获取用户配额失败: connection refused", stC1) :=
  ⟨rfl, quota_read_failure_rejects_500 cfgStd reqC1 stC1 100 "2024-05"
    (.claims [("userId", Json.str "u1")]) uC1 (.transport "connection refused")
    rfl rfl rfl (by decide) (by decide) (by decide) rfl⟩

/-- Counterexample for C2: a completed SET of a user record whose response
has status 500 (non-2xx) still returns success — `setUserToUpstash` never
inspects the status code. -/
theorem rest_set_user_ignores_status_counterexample :
    setUserToUpstash (.resp 500 (.ok (.envelope none))) = .ok ()
    ∧ (500 : Nat) ≠ 200 := ⟨rfl, by decide⟩

/-- Claim C2 (corrected): on the REST transport, network errors always
surface as failure for every operation, a malformed envelope fails the get
operations, and the quota save fails on any non-200 status; but the user
set returns success for every completed exchange regardless of status, and
the quota get returns success (a fresh record) on any response whose body
is a well-formed envelope, regardless of status. -/
theorem rest_transport_failure_semantics :
    (∀ m month, getUserFromUpstash (.netErr m) = .error (.transport m)
      ∧ getChannelQuotaFromUpstash (.netErr m) month = .error (.transport m)
      ∧ saveChannelQuotaToUpstash (.netErr m) = .error (.transport m)
      ∧ setUserToUpstash (.netErr m) = .error (.transport m))
    ∧ (∀ (status : Nat) (body : BodyRead), status ≠ 200 →
        saveChannelQuotaToUpstash (.resp status body) = .error .httpError)
    ∧ (∀ (status : Nat) (s month : String),
        getChannelQuotaFromUpstash (.resp status (.ok (.badJson s))) month = .error .badData
        ∧ getUserFromUpstash (.resp status (.ok (.badJson s))) = .error .badData)
    ∧ (∀ (status : Nat) (body : BodyRead), setUserToUpstash (.resp status body) = .ok ())
    ∧ (∀ (status : Nat) (month : String),
        getChannelQuotaFromUpstash (.resp status (.ok (.envelope none))) month
          = .ok (freshQuota month)) := by
  refine ⟨fun m month => ⟨rfl, rfl, rfl, rfl⟩, fun status body h => ?_, 
    fun status s month => ⟨rfl, rfl⟩, fun status body => rfl, fun status month => rfl⟩
  show (if status ≠ 200 then Except.error StoreErr.httpError else Except.ok ()) = _
  rw [if_pos h]

/-- Witness for the amended C2: the quota save fails on a 500 response,
while (per the correction) the user set succeeds on the same exchange. -/
theorem rest_transport_failure_semantics_witness :
    saveChannelQuotaToUpstash (.resp 500 (.ok (.envelope none))) = .error .httpError :=
  rest_transport_failure_semantics.2.1 500 (.ok (.envelope none)) (by decide)

/-- Looking up the removed key yields nothing. -/
theorem lookupField_removeField_self (cs : List (String × Json)) (k : String) :
    lookupField (removeField cs k) k = none := by
  induction cs with
  | nil => rfl
  | cons p rest ih =>
    obtain ⟨a, v⟩ := p
    unfold removeField
    by_cases h : a = k
    · rw [if_pos h]
      exact ih
    · rw [if_neg h]
      unfold lookupField
      rw [ih]
      simp [h]

/-- Removing one key leaves lookups of every other key unchanged. -/
theorem lookupField_removeField_ne (cs : List (String × Json)) (k key : String)
    (h : key ≠ k) :
    lookupField (removeField cs k) key = lookupField cs key := by
  induction cs with
  | nil => rfl
  | cons p rest ih =>
    obtain ⟨a, v⟩ := p
    by_cases ha : a = k
    · show lookupField (if a = k then removeField rest k else _) key = _
      rw [if_pos ha, ih]
      show _ = (match lookupField rest key with
        | some r => some r
        | none => if a = key then some v else none)
      cases hl : lookupField rest key with
      | some r => rfl
      | none =>
        show none = if a = key then some v else none
        rw [if_neg (fun hak => h (by rw [← hak, ha]))]
    · show lookupField (if a = k then removeField rest k else _) key = _
      rw [if_neg ha]
      unfold lookupField
      rw [ih]

/-- Claim C9 (confirmed): a present but non-numeric `exp` claim never
produces the expired-credential error — the expiry comparison applies only
to numeric `exp`, so resolution behaves exactly as if `exp` were absent. -/
theorem nonnumeric_exp_treated_as_absent (cs : List (String × Json)) (now : Int)
    (st : Store) (enabled : Bool) (j : Json)
    (hexp : lookupField cs "exp" = some j)
    (hnn : j.isNum = false) :
    verifyExternalJWT (.claims cs) now st enabled ≠ .error .expired
    ∧ verifyExternalJWT (.claims cs) now st enabled
      = verifyExternalJWT (.claims (removeField cs "exp")) now st enabled := by
  have hec : expiredCheck cs now = false := by
    unfold expiredCheck
    rw [hexp]
    cases j with
    | num n => simp [Json.isNum] at hnn
    | null => rfl
    | bool b => rfl
    | str s => rfl
    | arr es => rfl
    | obj fs => rfl
  have hec2 : expiredCheck (removeField cs "exp") now = false := by
    unfold expiredCheck
    rw [lookupField_removeField_self]
  have hu : strClaim (removeField cs "exp") "userId" = strClaim cs "userId" := by
    unfold strClaim
    rw [lookupField_removeField_ne cs "exp" "userId" (by decide)]
  have he : strClaim (removeField cs "exp") "email" = strClaim cs "email" := by
    unfold strClaim
    rw [lookupField_removeField_ne cs "exp" "email" (by decide)]
  constructor
  · show resolveFromClaims cs now st enabled ≠ .error .expired
    unfold resolveFromClaims
    rw [hec]
    simp only [Bool.false_eq_true, if_false]
    split
    · intro hcon
      exact AuthErr.noConfusion (Except.error.inj hcon)
    · cases getUserFromRedis st enabled (strClaim cs "userId") with
      | ok u => exact fun hcon => Except.noConfusion hcon
      | error a => exact fun hcon => Except.noConfusion hcon
  · show resolveFromClaims cs now st enabled
      = resolveFromClaims (removeField cs "exp") now st enabled
    unfold resolveFromClaims
    rw [hec, hec2, hu, he]

/-- Claims list of the C9 witness: a string-typed `exp` plus a user id. -/
def csW9 : List (String × Json) :=
  [("exp", Json.str "tomorrow"), ("userId", Json.str "u9")]

/-- Trivial store of the C9 witness. -/
def stTriv : Store := { data := fun _ => .nil, setFails := fun _ => false }

/-- Witness for C9: with `exp` bound to the string "tomorrow", resolution
does not report expiry and equals resolution without `exp`. -/
theorem nonnumeric_exp_treated_as_absent_witness :
    verifyExternalJWT (.claims csW9) 100 stTriv true ≠ .error .expired
    ∧ verifyExternalJWT (.claims csW9) 100 stTriv true
      = verifyExternalJWT (.claims (removeField csW9 "exp")) 100 stTriv true :=
  nonnumeric_exp_treated_as_absent csW9 100 stTriv true (Json.str "tomorrow") rfl rfl

/-- Clock instant shared by the C5 scenarios. -/
def nowW5 : Now := { day := "2024-01-01", hm := "10-00" }

/-- Counterexample for C5: an accepted check-and-record on channel 1, slot
0, RPM limit 1 performs two exclusive acquisitions of the table lock, not
one — the check and the increment are separate critical sections. -/
theorem check_and_record_two_lock_sections_counterexample :
    exclusiveAcquisitions (checkAndRecordLocks [] 1 0 1 0 nowW5) = 2
    ∧ (2 : Nat) ≠ 1
    ∧ (checkAndRecord [] 1 0 1 0 nowW5).1.1 = true := by decide

/-- Claim C5 (corrected): the limit check and the increment each run under
their own single exclusive acquisition of the table-wide lock, so an
accepted check-and-record spans two separate critical sections and other
table operations can interleave between them: with RPM limit 1, a second
check interleaved after a first accepted check is also accepted, and the
two increments then drive the minute count to 2 — one past the limit. -/
theorem check_and_increment_separate_critical_sections :
    (∀ rpmLimit rpdLimit : Int, rpmLimit > 0 ∨ rpdLimit > 0 →
      checkChannelRateLimitLocks rpmLimit rpdLimit = [.acqExclusive, .relExclusive])
    ∧ incrementChannelRateLimitLocks = [.acqExclusive, .relExclusive]
    ∧ ((checkChannelRateLimit [] 1 0 1 0 nowW5).1.1 = true
       ∧ (checkChannelRateLimit (checkChannelRateLimit [] 1 0 1 0 nowW5).2 1 0 1 0 nowW5).1.1
           = true
       ∧ (tblLookup (incrementChannelRateLimit (incrementChannelRateLimit
            (checkChannelRateLimit [] 1 0 1 0 nowW5).2 1 0 1 0 nowW5) 1 0 1 0 nowW5)
            (getChannelRateLimitKey 1 0)).map (fun i => i.rpmCount) = some 2) := by
  refine ⟨fun rpmLimit rpdLimit h => ?_, rfl, by decide⟩
  unfold checkChannelRateLimitLocks
  rw [if_neg (fun hcon => ?_)]
  · rfl
  · rcases h with h | h
    · exact absurd hcon.1 (not_le.mpr h)
    · exact absurd hcon.2 (not_le.mpr h)

/-- Witness for the amended C5: with RPM limit 1 the lock trace of the check is
one exclusive section. -/
theorem check_and_increment_separate_critical_sections_witness :
    checkChannelRateLimitLocks 1 0 = [.acqExclusive, .relExclusive] :=
  check_and_increment_separate_critical_sections.1 1 0 (Or.inl (by decide))

/-- Stored record of the C6 scenario: 5 requests counted in a minute that
is already over. -/
def infoW6 : ChannelRateLimitInfo :=
  { channelID := 1, keyIndex := 0, rpmCount := 5, rpdCount := 9, rpmLimit := 10, rpdLimit := 100,
    rpmRemaining := 5, rpdRemaining := 91,
    lastMinuteKey := ("2024-01-01", "10-00"), lastDayKey := "2024-01-01" }

/-- Table of the C6 scenario. -/
def tblW6 : RateTable := [("channel_rate_limit:1:0", infoW6)]

/-- Clock of the C6 scenario: one minute after the stored minute label. -/
def nowW6 : Now := { day := "2024-01-01", hm := "10-01" }

/-- Counterexample for C6: the read-only per-channel info query returns the
stored record unchanged — its reported minute count is 5 even though the
stored minute label differs from the current one, where the claim requires
a reported count of 0. -/
theorem readonly_info_query_stale_counterexample :
    getChannelRateLimitInfoByChannelID tblW6 1 = [infoW6]
    ∧ getAllChannelRateLimitInfo tblW6 = tblW6
    ∧ infoW6.lastMinuteKey ≠ (nowW6.day, nowW6.hm)
    ∧ infoW6.rpmCount = 5
    ∧ (5 : Int) ≠ 0 := by decide

/-- Claim C6 (corrected): only the exclusive-lock get-info operation
performs the rollover normalization; the shared-lock read-only queries
return the stored records with no normalization at all — `GetAll` is the
identity on the table and the per-channel query only filters stored
records — so their reported counts can be stale across a window boundary. -/
theorem only_locked_get_info_normalizes :
    (∀ tbl : RateTable, getAllChannelRateLimitInfo tbl = tbl)
    ∧ (∀ (tbl : RateTable) (channelID keyIndex rpmLimit rpdLimit : Int) (now : Now)
        (info : ChannelRateLimitInfo),
        tblLookup tbl (getChannelRateLimitKey channelID keyIndex) = some info →
        info.lastMinuteKey ≠ (now.day, now.hm) →
        (getChannelRateLimitInfoS tbl channelID keyIndex rpmLimit rpdLimit now).1.rpmCount = 0)
    ∧ (∀ (tbl : RateTable) (channelID keyIndex rpmLimit rpdLimit : Int) (now : Now)
        (info : ChannelRateLimitInfo),
        tblLookup tbl (getChannelRateLimitKey channelID keyIndex) = some info →
        info.lastDayKey ≠ now.day → info.lastMinuteKey.1 = info.lastDayKey →
        (getChannelRateLimitInfoS tbl channelID keyIndex rpmLimit rpdLimit now).1.rpdCount = 0)
    ∧ (∀ (tbl : RateTable) (channelID : Int),
        ∀ i ∈ getChannelRateLimitInfoByChannelID tbl channelID, ∃ k, (k, i) ∈ tbl) := by
  refine ⟨fun tbl => rfl, ?_, ?_, ?_⟩
  · intro tbl channelID keyIndex rpmLimit rpdLimit now info hlk hm
    simp only [getChannelRateLimitInfoS, hlk]
    exact rolloverInfo_rpmCount_zero info now hm
  · intro tbl channelID keyIndex rpmLimit rpdLimit now info hlk hd hcons
    simp only [getChannelRateLimitInfoS, hlk]
    exact rolloverInfo_rpdCount_zero info now hd hcons
  · intro tbl channelID i hi
    unfold getChannelRateLimitInfoByChannelID at hi
    rcases List.mem_map.mp hi with ⟨p, hmem, hpe⟩
    exact ⟨p.1, by
      have := (List.mem_filter.mp hmem).1
      rw [← hpe]
      exact this⟩

/-- Witness for the amended C6: on the C6 table, the normalizing get-info
reports the minute count 0 that the read-only query fails to report. -/
theorem only_locked_get_info_normalizes_witness :
    (getChannelRateLimitInfoS tblW6 1 0 10 100 nowW6).1.rpmCount = 0 :=
  only_locked_get_info_normalizes.2.1 tblW6 1 0 10 100 nowW6 infoW6 rfl (by decide)
